import Mathlib

/-!
Verification of the asynchronous notification subsystem of the
event-ticketing backend: the OTP store (otp_service.go), the OTP
issuance flow (otp_auth_service.go), and the priority email job queue
(email_queue_service.go, models/email_job.go).

The Redis substrate is modelled as pure association lists: string keys
with value and absolute expiry time for the OTP store, and explicit
lists per queue for the job lists.  Wall-clock time is passed
explicitly as a natural number of seconds; the zero value of Go's
time.Time is modelled by 0 (time.Time.IsZero becomes an equality test
with 0).  External effects (the PRNG draw, the template-render plus
SMTP-transport step, UUID generation) are parameters of the functions
that use them.
-/

namespace EventTicketing

/-! ## OTP store model (internal/services/otp_service.go) -/

/-- OTPs expire after 10 minutes (600 seconds). -/
def OTPExpiryTime : Nat := 600

/-- A Redis string store: entries of key, value and absolute expiry time.
The most recent entry for a key is the first one in the list. -/
abbrev OTPStore := List (String × String × Nat)

/-- Redis GET at time now: the value of the first live entry for the key.
An expired entry behaves exactly like an absent one (redis.Nil). -/
def redisGet (st : OTPStore) (key : String) (now : Nat) : Option String :=
  match st.find? (fun e => e.1 == key) with
  | some e => if now < e.2.2 then some e.2.1 else none
  | none => none

/-- Redis SET with TTL: replaces any existing entry for the key. -/
def redisSetEx (st : OTPStore) (key val : String) (ttl now : Nat) : OTPStore :=
  (key, val, now + ttl) :: st.filter (fun e => e.1 != key)

/-- Redis DEL: removes every entry for the key. -/
def redisDel (st : OTPStore) (key : String) : OTPStore :=
  st.filter (fun e => e.1 != key)

/-- Key layout used by the OTP service: "otpType:identifier". -/
def otpKey (otpType identifier : String) : String :=
  otpType ++ ":" ++ identifier

/-- SaveOTP: store the code under otpType:identifier with a 10-minute TTL,
overwriting any prior live code for that pair. -/
def SaveOTP (st : OTPStore) (identifier otpType otp : String) (now : Nat) : OTPStore :=
  redisSetEx st (otpKey otpType identifier) otp OTPExpiryTime now

/-- VerifyOTP: read the stored code; absent (or expired) yields
(store unchanged, false, no error); equal yields (key deleted, true, no
error); unequal yields (store unchanged, false, no error).  The Go error
branch fires only when the store itself fails, which the pure store model
cannot do, so the error component is always none here; it is kept in the
result so that the no-error part of the behaviour is stated explicitly. -/
def VerifyOTP (st : OTPStore) (identifier otpType otp : String) (now : Nat) :
    OTPStore × Bool × Option String :=
  match redisGet st (otpKey otpType identifier) now with
  | none => (st, false, none)
  | some stored =>
    if stored = otp then (redisDel st (otpKey otpType identifier), true, none)
    else (st, false, none)

/-- pow10 from otp_service.go: result starts at 1 and is multiplied by 10
n times. -/
def pow10 : Nat → Nat
  | 0 => 1
  | n + 1 => pow10 n * 10

/-- GenerateOTP, with the PRNG draw made explicit: the Go code computes
min = pow10(digits-1), max = pow10(digits)-1 and returns
strconv.Itoa(r.Intn(max-min+1) + min).  The parameter r stands for the
value returned by Intn(max-min+1), so r ranges over 0..max-min; the
code seeds a math/rand source with time.Now().UnixNano() per call, so r
is a deterministic function of the call timestamp. -/
def GenerateOTP (r : Nat) (digits : Nat) : String :=
  Nat.repr (r + pow10 (digits - 1))

/-! ## Basic store lemmas -/

theorem find?_filter_ne (st : OTPStore) (k : String) :
    (st.filter (fun e => e.1 != k)).find? (fun e => e.1 == k) = none := by
  induction st with
  | nil => rfl
  | cons e rest ih =>
    by_cases h : e.1 = k
    · have hb : (e.1 != k) = false := by simp [h]
      simp only [List.filter_cons, hb, Bool.false_eq_true, if_false, ih]
    · have hb : (e.1 != k) = true := by simp [h]
      have he : (e.1 == k) = false := by simp [h]
      simp only [List.filter_cons, hb, if_true, List.find?_cons, he, ih]

theorem redisGet_redisDel (st : OTPStore) (k : String) (now : Nat) :
    redisGet (redisDel st k) k now = none := by
  unfold redisGet redisDel
  rw [find?_filter_ne]

theorem redisGet_redisSetEx (st : OTPStore) (k v : String) (ttl now t : Nat) :
    redisGet (redisSetEx st k v ttl now) k t =
      if t < now + ttl then some v else none := by
  simp [redisGet, redisSetEx, List.find?]

/-! ## OTP issuance flow (internal/services/otp_auth_service.go) -/

/-- The success payload of GenerateAndSendOTP (models.OTPResponse). -/
structure OTPResponse where
  success : Bool
  message : String
  expiresIn : Nat
deriving Repr, DecidableEq

/-- GenerateAndSendOTP: validate the identifier, generate a code (the
drawn code is the parameter otp), save it to the store, then dispatch the
send by OTP type.  queueOTPEmail is the outcome of the queueing helper the
flow delegates to for the email-backed types (none = queued successfully,
some e = the helper returned error e).  On any send error the function
returns the error without touching the already-saved code. -/
def GenerateAndSendOTP (st : OTPStore) (identifier otpType otp : String) (now : Nat)
    (queueOTPEmail : String → String → String → Option String) :
    OTPStore × Except String OTPResponse :=
  if identifier = "" then (st, Except.error "Identifier is required")
  else
    let st1 := SaveOTP st identifier otpType otp now
    let sendErr : Option String :=
      if otpType = "registration" then queueOTPEmail identifier otp "registration"
      else if otpType = "password_reset" then queueOTPEmail identifier otp "password_reset"
      else if otpType = "phone_verification" then some "SMS OTP not yet implemented"
      else if otpType = "2fa" then queueOTPEmail identifier otp "2fa"
      else some ("unknown OTP type: " ++ otpType)
    match sendErr with
    | some e => (st1, Except.error e)
    | none =>
      (st1, Except.ok { success := true,
                        message := "OTP sent to " ++ identifier,
                        expiresIn := OTPExpiryTime })

/-! ## Email job data model (internal/models/email_job.go) -/

/-- models.EmailJob.  Times are seconds; 0 is the Go zero time. -/
structure EmailJob where
  id : String
  type : String
  toAddr : String  -- the To field; "to" is reserved in Lean
  subject : String
  templateFile : String
  templateData : List (String × String)
  priority : Int
  createdAt : Nat
  processAfter : Nat
  retryCount : Nat
  maxRetries : Nat
  lastError : String
  lastAttemptedAt : Nat
deriving Repr, DecidableEq

/-- models.EmailJobResult. -/
structure EmailJobResult where
  jobID : String
  successful : Bool
  error : String
  sentAt : Nat
deriving Repr, DecidableEq

def PriorityUrgent : Int := 0
def PriorityHigh : Int := 1
def PriorityNormal : Int := 2
def PriorityLow : Int := 3

def DefaultMaxRetries : Nat := 3

/-- EmailJob.GetPriorityQueue from models/email_job.go: the four-queue
mapping (0 = urgent, 1 = high, 2 = normal, 3 = low, default normal). -/
def GetPriorityQueue (job : EmailJob) : String :=
  if job.priority = PriorityUrgent then "queue:email:urgent"
  else if job.priority = PriorityHigh then "queue:email:high"
  else if job.priority = PriorityNormal then "queue:email:normal"
  else if job.priority = PriorityLow then "queue:email:low"
  else "queue:email:normal"

/-- EmailJob.SetDefaults from models/email_job.go: fills createdAt,
maxRetries, processAfter and id only when they are unset. -/
def SetDefaults (job : EmailJob) (now : Nat) (freshId : String) : EmailJob :=
  let j1 := if job.createdAt = 0 then { job with createdAt := now } else job
  let j2 := if j1.maxRetries = 0 then { j1 with maxRetries := DefaultMaxRetries } else j1
  let j3 := if j2.processAfter = 0 then { j2 with processAfter := now } else j2
  if j3.id = "" then { j3 with id := freshId } else j3

/-! ## Email queue service (internal/services/email_queue_service.go) -/

def EmailHighPriorityQueue : String := "queue:email:high"
def EmailNormalPriorityQueue : String := "queue:email:normal"
def EmailLowPriorityQueue : String := "queue:email:low"
def EmailProcessingSet : String := "processing:email"
def EmailResultSet : String := "results:email"

/-- Result records live for 24 hours (86400 seconds). -/
def ResultTTL : Nat := 86400

/-- Processing markers live for 5 minutes (300 seconds). -/
def ProcessingTTL : Nat := 300

/-- A serialized entry on a queue list: either valid JSON of a job, or
bytes that fail deserialization. -/
inductive Payload where
  | ok (job : EmailJob)
  | corrupt (raw : String)
deriving Repr, DecidableEq

/-- A keyed store with per-entry TTL (Redis SET/GET/DEL on string keys). -/
abbrev KVStore (α : Type) := List (String × α × Nat)

/-- Redis SET: replaces any existing entry for the key. -/
def kvSet {α : Type} (store : KVStore α) (key : String) (v : α) (ttl : Nat) : KVStore α :=
  (key, v, ttl) :: store.filter (fun e => e.1 != key)

/-- Redis DEL. -/
def kvDel {α : Type} (store : KVStore α) (key : String) : KVStore α :=
  store.filter (fun e => e.1 != key)

/-- Redis GET (value and TTL of the entry, if present). -/
def kvGet {α : Type} (store : KVStore α) (key : String) : Option (α × Nat) :=
  match store.find? (fun e => e.1 == key) with
  | some e => some e.2
  | none => none

/-- The Redis state touched by the email queue service: the three queue
lists (index 0 is the head, the side LPUSH prepends to; BRPOP takes from
the tail), the processing markers and the result records. -/
structure QueueState where
  high : List Payload
  normal : List Payload
  low : List Payload
  processing : KVStore EmailJob
  results : KVStore EmailJobResult
deriving Repr, DecidableEq

def emptyQueueState : QueueState := ⟨[], [], [], [], []⟩

/-- The queue-selection switch inside QueueEmail: priority ≤ 0 goes to
the high queue, priority ≤ 5 to the normal queue, anything larger to the
low queue. -/
def selectQueueName (priority : Int) : String :=
  if priority ≤ 0 then EmailHighPriorityQueue
  else if priority ≤ 5 then EmailNormalPriorityQueue
  else EmailLowPriorityQueue

/-- LPUSH onto the named list (queues are addressed only by the three
fixed names). -/
def lpush (st : QueueState) (queueName : String) (p : Payload) : QueueState :=
  if queueName = EmailHighPriorityQueue then { st with high := p :: st.high }
  else if queueName = EmailNormalPriorityQueue then { st with normal := p :: st.normal }
  else if queueName = EmailLowPriorityQueue then { st with low := p :: st.low }
  else st

/-- RPUSH onto the tail of the named list. -/
def rpush (st : QueueState) (queueName : String) (p : Payload) : QueueState :=
  if queueName = EmailHighPriorityQueue then { st with high := st.high ++ [p] }
  else if queueName = EmailNormalPriorityQueue then { st with normal := st.normal ++ [p] }
  else if queueName = EmailLowPriorityQueue then { st with low := st.low ++ [p] }
  else st

/-- QueueEmail: generate an id only if the job has none, set createdAt to
the current time (unconditionally in the code), serialize, and LPUSH onto
the list selected from the priority.  freshId stands for the UUID the
code would draw.  Returns the updated state together with the job value
as mutated through the pointer. -/
def QueueEmail (st : QueueState) (job : EmailJob) (now : Nat) (freshId : String) :
    QueueState × EmailJob :=
  let j1 := if job.id = "" then { job with id := freshId } else job
  let j2 := { j1 with createdAt := now }
  (lpush st (selectQueueName j2.priority) (Payload.ok j2), j2)

/-- Pop from the tail of a list (what BRPOP does to the single list it
serves from). -/
def popTail (l : List Payload) : Option (Payload × List Payload) :=
  match l.getLast? with
  | some p => some (p, l.dropLast)
  | none => none

/-- BRPOP over the three queue keys in the order the code passes them:
high, normal, low; the first non-empty list serves. None models the
redis.Nil timeout (no job in any queue). -/
def brpop (st : QueueState) : Option (String × Payload × QueueState) :=
  match popTail st.high with
  | some (p, rest) => some (EmailHighPriorityQueue, p, { st with high := rest })
  | none =>
    match popTail st.normal with
    | some (p, rest) => some (EmailNormalPriorityQueue, p, { st with normal := rest })
    | none =>
      match popTail st.low with
      | some (p, rest) => some (EmailLowPriorityQueue, p, { st with low := rest })
      | none => none

/-- Outcome of the external send step (template render plus SMTP
transport), which the worker consumes as a single fallible call. -/
inductive SendOutcome where
  | success
  | failure (err : String)
deriving Repr, DecidableEq

/-- A send oracle that always fails with the given error. -/
def sendAlwaysFail (e : String) : EmailJob → SendOutcome :=
  fun _ => SendOutcome.failure e

/-- processEmailJob: reject a job without a template file, otherwise
render and send through the external step and record the outcome. -/
def processEmailJob (send : EmailJob → SendOutcome) (job : EmailJob) (now : Nat) :
    EmailJobResult :=
  if job.templateFile = "" then
    { jobID := job.id, successful := false, error := "template file not specified", sentAt := 0 }
  else
    match send job with
    | SendOutcome.failure e => { jobID := job.id, successful := false, error := e, sentAt := 0 }
    | SendOutcome.success => { jobID := job.id, successful := true, error := "", sentAt := now }

/-- What one call of ProcessEmailQueue did. -/
inductive PollOutcome where
  | empty
  | deserializeError (raw : String)
  | deferred (job : EmailJob)
  | processed (job : EmailJob) (result : EmailJobResult)
deriving Repr, DecidableEq

/-- The tail of ProcessEmailQueue once a due job is in hand: write the
processing marker, process the job, save the result with the 24h TTL,
delete the marker, and on a failed attempt with retries remaining
re-enqueue the job with retryCount+1 and
processAfter = now + 2^retryCount seconds (the shift happens after the
increment, so the first retry is delayed 2 seconds, then 4, 8, ...). -/
def finalizeJob (send : EmailJob → SendOutcome) (st1 : QueueState) (job : EmailJob)
    (now : Nat) (freshId : String) : QueueState × PollOutcome :=
  let st2 := { st1 with
    processing := kvSet st1.processing (EmailProcessingSet ++ ":" ++ job.id) job ProcessingTTL }
  let res := processEmailJob send job now
  let st3 := { st2 with
    results := kvSet st2.results (EmailResultSet ++ ":" ++ job.id) res ResultTTL }
  let st4 := { st3 with
    processing := kvDel st3.processing (EmailProcessingSet ++ ":" ++ job.id) }
  if res.successful = false ∧ job.retryCount < job.maxRetries then
    let j1 := { job with
      retryCount := job.retryCount + 1,
      lastAttemptedAt := now,
      lastError := res.error,
      processAfter := now + 2 ^ (job.retryCount + 1) }
    ((QueueEmail st4 j1 now freshId).1, PollOutcome.processed job res)
  else
    (st4, PollOutcome.processed job res)

/-- ProcessEmailQueue: one worker iteration.  BRPOP across the three
queues; redis.Nil is a normal empty poll; a deserialization failure
returns an error with the popped bytes discarded; a job whose
processAfter is non-zero and still in the future is RPUSHed back onto the
list it came from and the poll is a no-op; otherwise the job is handed to
the finalize phase. -/
def ProcessEmailQueue (send : EmailJob → SendOutcome) (st : QueueState) (now : Nat)
    (freshId : String) : QueueState × PollOutcome :=
  match brpop st with
  | none => (st, PollOutcome.empty)
  | some (queueName, payload, st1) =>
    match payload with
    | Payload.corrupt raw => (st1, PollOutcome.deserializeError raw)
    | Payload.ok job =>
      if job.processAfter ≠ 0 ∧ now < job.processAfter then
        (rpush st1 queueName (Payload.ok job), PollOutcome.deferred job)
      else
        finalizeJob send st1 job now freshId

/-- A sequence of worker polls at the given times (single worker; the
freshId parameter is irrelevant because re-enqueued jobs keep their id). -/
def pollRun (send : EmailJob → SendOutcome) : QueueState → List Nat →
    QueueState × List PollOutcome
  | st, [] => (st, [])
  | st, t :: ts =>
    let step := ProcessEmailQueue send st t ""
    let rest := pollRun send step.1 ts
    (rest.1, step.2 :: rest.2)

/-! ## Queue infrastructure lemmas -/

theorem popTail_concat (l : List Payload) (p : Payload) :
    popTail (l ++ [p]) = some (p, l) := by
  simp [popTail, List.getLast?_concat, List.dropLast_concat]

theorem popTail_eq_some (l : List Payload) (p : Payload) (rest : List Payload)
    (h : popTail l = some (p, rest)) : l = rest ++ [p] := by
  induction l using List.reverseRecOn with
  | nil => simp [popTail] at h
  | append_singleton l1 a _ =>
    rw [popTail_concat] at h
    cases h
    rfl

theorem popTail_eq_none (l : List Payload) (h : popTail l = none) : l = [] := by
  induction l using List.reverseRecOn with
  | nil => rfl
  | append_singleton l1 a _ => rw [popTail_concat] at h; cases h

theorem kvGet_kvSet {α : Type} (store : KVStore α) (k : String) (v : α) (ttl : Nat) :
    kvGet (kvSet store k v ttl) k = some (v, ttl) := by
  simp [kvGet, kvSet, List.find?]

/-- Full case analysis of a successful BRPOP: the served queue is the
first non-empty one in the order high, normal, low; the popped payload
came off that queue's tail, the other queues and the key-value stores are
untouched. -/
theorem brpop_spec (st : QueueState) (qn : String) (p : Payload) (st1 : QueueState)
    (h : brpop st = some (qn, p, st1)) :
    st1.processing = st.processing ∧ st1.results = st.results ∧
    ((qn = EmailHighPriorityQueue ∧ st.high = st1.high ++ [p] ∧
      st1.normal = st.normal ∧ st1.low = st.low) ∨
     (qn = EmailNormalPriorityQueue ∧ st.high = [] ∧ st.normal = st1.normal ++ [p] ∧
      st1.high = st.high ∧ st1.low = st.low) ∨
     (qn = EmailLowPriorityQueue ∧ st.high = [] ∧ st.normal = [] ∧
      st.low = st1.low ++ [p] ∧ st1.high = st.high ∧ st1.normal = st.normal)) := by
  unfold brpop at h
  cases hh : popTail st.high with
  | some pr =>
    obtain ⟨ph, resth⟩ := pr
    rw [hh] at h
    cases h
    exact ⟨rfl, rfl, Or.inl ⟨rfl, popTail_eq_some _ _ _ hh, rfl, rfl⟩⟩
  | none =>
    rw [hh] at h
    have hhigh := popTail_eq_none _ hh
    cases hn : popTail st.normal with
    | some pr =>
      obtain ⟨pn, restn⟩ := pr
      rw [hn] at h
      cases h
      exact ⟨rfl, rfl, Or.inr (Or.inl ⟨rfl, hhigh, popTail_eq_some _ _ _ hn, rfl, rfl⟩)⟩
    | none =>
      rw [hn] at h
      have hnorm := popTail_eq_none _ hn
      cases hl : popTail st.low with
      | some pr =>
        obtain ⟨pl, restl⟩ := pr
        rw [hl] at h
        cases h
        exact ⟨rfl, rfl, Or.inr (Or.inr ⟨rfl, hhigh, hnorm, popTail_eq_some _ _ _ hl, rfl, rfl⟩)⟩
      | none => rw [hl] at h; cases h

/-- QueueEmail mutates the job exactly by filling an empty id and
stamping createdAt. -/
theorem QueueEmail_job (st : QueueState) (job : EmailJob) (now : Nat) (freshId : String) :
    (QueueEmail st job now freshId).2 =
      { job with id := if job.id = "" then freshId else job.id, createdAt := now } := by
  unfold QueueEmail
  dsimp only
  split_ifs <;> rfl

/-- QueueEmail pushes the serialized job onto the single queue selected
by the priority thresholds and touches nothing else. -/
theorem QueueEmail_routing (st : QueueState) (job : EmailJob)
    (now : Nat) (freshId : String) :
    (QueueEmail st job now freshId).1 =
      (if job.priority ≤ 0 then
        { st with high := Payload.ok (QueueEmail st job now freshId).2 :: st.high }
      else if job.priority ≤ 5 then
        { st with normal := Payload.ok (QueueEmail st job now freshId).2 :: st.normal }
      else
        { st with low := Payload.ok (QueueEmail st job now freshId).2 :: st.low }) := by
  unfold QueueEmail selectQueueName lpush
  dsimp only
  by_cases hid : job.id = "" <;>
    simp only [hid, if_true, if_false] <;>
    split_ifs <;>
    simp_all [EmailHighPriorityQueue, EmailNormalPriorityQueue, EmailLowPriorityQueue]

theorem QueueEmail_frame (st : QueueState) (job : EmailJob) (now : Nat) (freshId : String) :
    (QueueEmail st job now freshId).1.processing = st.processing ∧
    (QueueEmail st job now freshId).1.results = st.results := by
  unfold QueueEmail lpush
  dsimp only
  split_ifs <;> exact ⟨rfl, rfl⟩

theorem finalizeJob_outcome (send : EmailJob → SendOutcome) (st1 : QueueState)
    (job : EmailJob) (now : Nat) (freshId : String) :
    (finalizeJob send st1 job now freshId).2 =
      PollOutcome.processed job (processEmailJob send job now) := by
  unfold finalizeJob
  dsimp only
  split_ifs <;> rfl

theorem finalizeJob_result_written (send : EmailJob → SendOutcome) (st1 : QueueState)
    (job : EmailJob) (now : Nat) (freshId : String) :
    kvGet (finalizeJob send st1 job now freshId).1.results
        (EmailResultSet ++ ":" ++ job.id) =
      some (processEmailJob send job now, ResultTTL) := by
  unfold finalizeJob
  dsimp only
  split_ifs with h
  · rw [(QueueEmail_frame _ _ _ _).2]
    exact kvGet_kvSet _ _ _ _
  · exact kvGet_kvSet _ _ _ _

/-! ## Claim C2: verifyCode semantics -/

/-- C2: for every (identifier, purpose, submitted): with no code stored
under the pair, verifyCode returns invalid with no error and an unchanged
store; with the stored code equal to the submitted one it returns valid,
deletes the stored code, and an immediately following verification with
the same code returns invalid (single use); with a differing stored code
it returns invalid with no error and the stored code intact. -/
theorem c2_verify_code_semantics
    (st : OTPStore) (identifier otpType submitted : String) (now : Nat) :
    (redisGet st (otpKey otpType identifier) now = none →
      VerifyOTP st identifier otpType submitted now = (st, false, none)) ∧
    (redisGet st (otpKey otpType identifier) now = some submitted →
      VerifyOTP st identifier otpType submitted now =
        (redisDel st (otpKey otpType identifier), true, none) ∧
      VerifyOTP (redisDel st (otpKey otpType identifier)) identifier otpType submitted now =
        (redisDel st (otpKey otpType identifier), false, none)) ∧
    (∀ stored, redisGet st (otpKey otpType identifier) now = some stored →
      stored ≠ submitted →
      VerifyOTP st identifier otpType submitted now = (st, false, none)) := by
  refine ⟨?_, ?_, ?_⟩
  · intro h
    simp [VerifyOTP, h]
  · intro h
    refine ⟨by simp [VerifyOTP, h], ?_⟩
    simp [VerifyOTP, redisGet_redisDel]
  · intro stored h hne
    simp [VerifyOTP, h, hne]

theorem c2_verify_code_semantics_witness :
    VerifyOTP (SaveOTP [] "alice@example.com" "password_reset" "123456" 0)
        "alice@example.com" "password_reset" "123456" 5 =
      (redisDel (SaveOTP [] "alice@example.com" "password_reset" "123456" 0)
        (otpKey "password_reset" "alice@example.com"), true, none) ∧
    VerifyOTP (redisDel (SaveOTP [] "alice@example.com" "password_reset" "123456" 0)
        (otpKey "password_reset" "alice@example.com"))
        "alice@example.com" "password_reset" "123456" 5 =
      (redisDel (SaveOTP [] "alice@example.com" "password_reset" "123456" 0)
        (otpKey "password_reset" "alice@example.com"), false, none) :=
  (c2_verify_code_semantics (SaveOTP [] "alice@example.com" "password_reset" "123456" 0)
    "alice@example.com" "password_reset" "123456" 5).2.1 (by decide)

/-! ## Claim C10: GenerateAndSendOTP is not atomic on error -/

/-- C10: when saving the code succeeds but the send step fails — an
unknown OTP type, or the email-queueing helper returning an error — the
call returns the error while the generated code is already stored under
(identifier, purpose); the stored code verifies as valid at any time
within the 10-minute TTL window. -/
theorem c10_generate_and_send_not_atomic
    (st : OTPStore) (identifier otpType otp e : String) (now : Nat)
    (queueOTPEmail : String → String → String → Option String)
    (hid : identifier ≠ "") :
    ((otpType ≠ "registration" ∧ otpType ≠ "password_reset" ∧
      otpType ≠ "phone_verification" ∧ otpType ≠ "2fa") →
      GenerateAndSendOTP st identifier otpType otp now queueOTPEmail =
        (SaveOTP st identifier otpType otp now,
         Except.error ("unknown OTP type: " ++ otpType))) ∧
    (otpType = "registration" → queueOTPEmail identifier otp "registration" = some e →
      GenerateAndSendOTP st identifier otpType otp now queueOTPEmail =
        (SaveOTP st identifier otpType otp now, Except.error e)) ∧
    (∀ t, t < now + OTPExpiryTime →
      VerifyOTP (SaveOTP st identifier otpType otp now) identifier otpType otp t =
        (redisDel (SaveOTP st identifier otpType otp now) (otpKey otpType identifier),
         true, none)) := by
  refine ⟨?_, ?_, ?_⟩
  · intro h
    obtain ⟨h1, h2, h3, h4⟩ := h
    simp [GenerateAndSendOTP, hid, h1, h2, h3, h4]
  · intro ht hq
    subst ht
    simp [GenerateAndSendOTP, hid, hq]
  · intro t ht
    have hget : redisGet (SaveOTP st identifier otpType otp now)
        (otpKey otpType identifier) t = some otp := by
      unfold SaveOTP
      rw [redisGet_redisSetEx]
      exact if_pos ht
    simp [VerifyOTP, hget]

theorem c10_generate_and_send_not_atomic_witness :
    GenerateAndSendOTP [] "alice@example.com" "bogus" "123456" 0 (fun _ _ _ => none) =
      (SaveOTP [] "alice@example.com" "bogus" "123456" 0,
       Except.error ("unknown OTP type: " ++ "bogus")) ∧
    VerifyOTP (SaveOTP [] "alice@example.com" "bogus" "123456" 0)
        "alice@example.com" "bogus" "123456" 599 =
      (redisDel (SaveOTP [] "alice@example.com" "bogus" "123456" 0)
        (otpKey "bogus" "alice@example.com"), true, none) :=
  ⟨(c10_generate_and_send_not_atomic [] "alice@example.com" "bogus" "123456" ""
      0 (fun _ _ _ => none) (by decide)).1 (by decide),
   (c10_generate_and_send_not_atomic [] "alice@example.com" "bogus" "123456" ""
      0 (fun _ _ _ => none) (by decide)).2.2 599 (by decide)⟩

/-! ## Claim C7: generateCode -/

/-- C7: what the code actually computes.  The OTP value is Intn draw plus
pow10(digits-1); at digits = 6 the value lies in [pow10 5, pow10 6 - 1]
(six characters, leading digit non-zero once rendered), and the rendered
string is a deterministic function of the draw — the draw itself comes
from math/rand seeded with the call timestamp, not from a
cryptographically-adequate source, which is what makes the claim a code
bug rather than a property of the range arithmetic. -/
theorem c7_generate_otp_code_model :
    GenerateOTP 0 6 = "100000" ∧
    GenerateOTP 899999 6 = "999999" ∧
    (GenerateOTP 271828 6).length = 6 ∧
    (∀ r : Nat, r ≤ pow10 6 - 1 - pow10 5 →
      pow10 5 ≤ r + pow10 5 ∧ r + pow10 5 ≤ pow10 6 - 1) := by
  refine ⟨by decide, by decide, by decide, ?_⟩
  intro r hr
  refine ⟨Nat.le_add_left _ _, ?_⟩
  have h5 : pow10 5 = 100000 := by decide
  have h6 : pow10 6 = 1000000 := by decide
  omega

theorem c7_generate_otp_code_model_witness :
    GenerateOTP 0 6 = "100000" ∧ (0 : Nat) ≤ pow10 6 - 1 - pow10 5 ∧
    pow10 5 ≤ 0 + pow10 5 ∧ 0 + pow10 5 ≤ pow10 6 - 1 :=
  ⟨c7_generate_otp_code_model.1, by decide,
   (c7_generate_otp_code_model.2.2.2 0 (by decide)).1,
   (c7_generate_otp_code_model.2.2.2 0 (by decide)).2⟩

/-! ## Claim C1: enqueue routing -/

/-- Sample urgent-priority (0) OTP job. -/
def otpJobUrgent : EmailJob :=
  { id := "job-otp-1", type := "otp", toAddr := "alice@example.com",
    subject := "Verify Your Email Address", templateFile := "otp_email.html",
    templateData := [], priority := PriorityUrgent, createdAt := 0, processAfter := 0,
    retryCount := 0, maxRetries := 3, lastError := "", lastAttemptedAt := 0 }

/-- C1 counterexample: enqueueing a priority-0 (urgent) job pushes it onto
queue:email:high, not queue:email:urgent as claimed; priority 1 routes to
the normal queue, not high, and priority 3 routes to the normal queue,
not low.  The claimed four-name mapping lives only in the models helper
GetPriorityQueue, which QueueEmail does not call. -/
theorem c1_counterexample :
    selectQueueName otpJobUrgent.priority = "queue:email:high" ∧
    GetPriorityQueue otpJobUrgent = "queue:email:urgent" ∧
    selectQueueName otpJobUrgent.priority ≠ GetPriorityQueue otpJobUrgent ∧
    (QueueEmail emptyQueueState otpJobUrgent 10 "fresh").1.high =
      [Payload.ok ((QueueEmail emptyQueueState otpJobUrgent 10 "fresh").2)] ∧
    selectQueueName 1 = "queue:email:normal" ∧
    selectQueueName 3 = "queue:email:normal" := by decide

/-- C1 amended: every job passed to QueueEmail is pushed onto exactly one
of three fixed queues, chosen by thresholds on its priority value:
priority ≤ 0 onto queue:email:high, 0 < priority ≤ 5 onto
queue:email:normal, priority > 5 onto queue:email:low; the other two
queues and the marker/result stores are untouched. -/
theorem c1_amended_three_queue_routing (st : QueueState) (job : EmailJob)
    (now : Nat) (freshId : String) :
    (QueueEmail st job now freshId).1 =
      (if job.priority ≤ 0 then
        { st with high := Payload.ok (QueueEmail st job now freshId).2 :: st.high }
      else if job.priority ≤ 5 then
        { st with normal := Payload.ok (QueueEmail st job now freshId).2 :: st.normal }
      else
        { st with low := Payload.ok (QueueEmail st job now freshId).2 :: st.low }) :=
  QueueEmail_routing st job now freshId

/-! ## Claim C8: enqueue frame -/

/-- Sample job with an already-set createdAt. -/
def presetJob : EmailJob :=
  { id := "job-preset", type := "welcome", toAddr := "bob@example.com",
    subject := "Welcome", templateFile := "welcome_email.html", templateData := [],
    priority := 3, createdAt := 5, processAfter := 0, retryCount := 0,
    maxRetries := 3, lastError := "", lastAttemptedAt := 0 }

/-- C8 counterexample: QueueEmail overwrites an already-set createdAt
with the current time (the conditional update the claim describes exists
only in the unused models helper SetDefaults). -/
theorem c8_counterexample :
    presetJob.createdAt = 5 ∧
    (QueueEmail emptyQueueState presetJob 10 "fresh").2.createdAt = 10 ∧
    (QueueEmail emptyQueueState presetJob 10 "fresh").2.createdAt ≠ presetJob.createdAt ∧
    (SetDefaults presetJob 10 "fresh").createdAt = 5 := by decide

/-- C8 amended: QueueEmail assigns the fresh id only when job.id is
empty, sets createdAt to the current time unconditionally (overwriting
any already-set value), and leaves every other field of the job —
priority, retryCount, maxRetries, destination, template data and the
rest — unmodified. -/
theorem c8_amended_enqueue_frame (st : QueueState) (job : EmailJob) (now : Nat)
    (freshId : String) :
    (QueueEmail st job now freshId).2 =
      { job with id := if job.id = "" then freshId else job.id, createdAt := now } :=
  QueueEmail_job st job now freshId

/-! ## Claim C9: deserialization failure drops the job -/

/-- C9: when the bytes popped from a queue fail deserialization,
ProcessEmailQueue returns an error outcome and the job is permanently
lost: the resulting state is exactly the post-pop state — the payload was
removed from the tail of the queue it occupied, nothing was pushed back,
and the processing markers and result records are untouched. -/
theorem c9_deserialize_error_drops_job
    (send : EmailJob → SendOutcome) (st st1 : QueueState) (now : Nat)
    (freshId queueName raw : String)
    (h : brpop st = some (queueName, Payload.corrupt raw, st1)) :
    ProcessEmailQueue send st now freshId = (st1, PollOutcome.deserializeError raw) ∧
    st1.processing = st.processing ∧ st1.results = st.results ∧
    ((queueName = EmailHighPriorityQueue ∧ st.high = st1.high ++ [Payload.corrupt raw] ∧
      st1.normal = st.normal ∧ st1.low = st.low) ∨
     (queueName = EmailNormalPriorityQueue ∧ st.high = [] ∧
      st.normal = st1.normal ++ [Payload.corrupt raw] ∧
      st1.high = st.high ∧ st1.low = st.low) ∨
     (queueName = EmailLowPriorityQueue ∧ st.high = [] ∧ st.normal = [] ∧
      st.low = st1.low ++ [Payload.corrupt raw] ∧
      st1.high = st.high ∧ st1.normal = st.normal)) := by
  have hspec := brpop_spec st queueName (Payload.corrupt raw) st1 h
  refine ⟨?_, hspec.1, hspec.2.1, ?_⟩
  · unfold ProcessEmailQueue
    rw [h]
  · rcases hspec.2.2 with h1 | h2 | h3
    · exact Or.inl ⟨h1.1, h1.2.1, h1.2.2.1, h1.2.2.2⟩
    · exact Or.inr (Or.inl h2)
    · exact Or.inr (Or.inr h3)

theorem c9_deserialize_error_drops_job_witness :
    ProcessEmailQueue (sendAlwaysFail "x") ⟨[Payload.corrupt "junk"], [], [], [], []⟩ 7 "f" =
      (⟨[], [], [], [], []⟩, PollOutcome.deserializeError "junk") :=
  (c9_deserialize_error_drops_job (sendAlwaysFail "x")
    ⟨[Payload.corrupt "junk"], [], [], [], []⟩ ⟨[], [], [], [], []⟩ 7 "f"
    EmailHighPriorityQueue "junk" (by decide)).1

/-! ## Claim C6: result records -/

theorem rpush_frame (st : QueueState) (queueName : String) (p : Payload) :
    (rpush st queueName p).processing = st.processing ∧
    (rpush st queueName p).results = st.results := by
  unfold rpush
  split_ifs <;> exact ⟨rfl, rfl⟩

/-- A send oracle that always succeeds. -/
def sendAlwaysOk : EmailJob → SendOutcome := fun _ => SendOutcome.success

/-- Sample retryable job on the normal queue. -/
def retryableJob : EmailJob :=
  { id := "job-r6", type := "notification", toAddr := "carol@example.com",
    subject := "Event update", templateFile := "event_notification.html",
    templateData := [], priority := PriorityNormal, createdAt := 0, processAfter := 0,
    retryCount := 0, maxRetries := 3, lastError := "", lastAttemptedAt := 0 }

def c6State : QueueState := ⟨[], [Payload.ok retryableJob], [], [], []⟩

/-- C6 counterexample: a failed attempt that will still be retried DOES
get a Job Result written under results:email:<jobId> with the 24h TTL —
here the job fails with retryCount 0 < maxRetries 3, is re-enqueued onto
its queue (so the attempt is not terminal), and the result record is
nevertheless present. -/
theorem c6_counterexample :
    (ProcessEmailQueue (sendAlwaysFail "smtp down") c6State 100 "fresh").2 =
      PollOutcome.processed retryableJob
        { jobID := "job-r6", successful := false, error := "smtp down", sentAt := 0 } ∧
    kvGet (ProcessEmailQueue (sendAlwaysFail "smtp down") c6State 100 "fresh").1.results
        "results:email:job-r6" =
      some ({ jobID := "job-r6", successful := false, error := "smtp down", sentAt := 0 },
        86400) ∧
    (ProcessEmailQueue (sendAlwaysFail "smtp down") c6State 100 "fresh").1.normal ≠ [] := by
  decide

/-- C6 amended: a Job Result (successful, error, sentAt) is written under
results:email:<jobId> with the 24-hour TTL on every processed attempt —
successful, finally failed, or failed with retries still remaining (each
write overwrites the previous record for that id) — and no result is
written by an empty poll, a deferred poll, or a poll that hit a
deserialization failure. -/
theorem c6_amended_result_every_attempt
    (send : EmailJob → SendOutcome) (st : QueueState) (now : Nat) (freshId : String) :
    (∀ job res, (ProcessEmailQueue send st now freshId).2 = PollOutcome.processed job res →
      res = processEmailJob send job now ∧
      kvGet (ProcessEmailQueue send st now freshId).1.results
          (EmailResultSet ++ ":" ++ job.id) = some (res, ResultTTL)) ∧
    (∀ job, (ProcessEmailQueue send st now freshId).2 = PollOutcome.deferred job →
      (ProcessEmailQueue send st now freshId).1.results = st.results) ∧
    ((ProcessEmailQueue send st now freshId).2 = PollOutcome.empty →
      (ProcessEmailQueue send st now freshId).1.results = st.results) ∧
    (∀ raw, (ProcessEmailQueue send st now freshId).2 = PollOutcome.deserializeError raw →
      (ProcessEmailQueue send st now freshId).1.results = st.results) := by
  cases hb : brpop st with
  | none =>
    refine ⟨?_, ?_, ?_, ?_⟩ <;> simp [ProcessEmailQueue, hb]
  | some v =>
    obtain ⟨qn, payload, st1⟩ := v
    have hres1 : st1.results = st.results := (brpop_spec st qn payload st1 hb).2.1
    cases payload with
    | corrupt raw =>
      refine ⟨?_, ?_, ?_, ?_⟩ <;> simp [ProcessEmailQueue, hb, hres1]
    | ok job0 =>
      by_cases hdef : job0.processAfter ≠ 0 ∧ now < job0.processAfter
      · have hout : ProcessEmailQueue send st now freshId =
            (rpush st1 qn (Payload.ok job0), PollOutcome.deferred job0) := by
          unfold ProcessEmailQueue
          rw [hb]
          simp [hdef]
        refine ⟨?_, ?_, ?_, ?_⟩ <;>
          simp [hout, (rpush_frame st1 qn (Payload.ok job0)).2, hres1]
      · have hout : ProcessEmailQueue send st now freshId =
            finalizeJob send st1 job0 now freshId := by
          unfold ProcessEmailQueue
          rw [hb]
          simp [hdef]
        refine ⟨?_, ?_, ?_, ?_⟩
        · intro job res h
          rw [hout, finalizeJob_outcome] at h
          cases h
          rw [hout]
          exact ⟨rfl, finalizeJob_result_written send st1 job0 now freshId⟩
        · intro job h
          rw [hout, finalizeJob_outcome] at h
          cases h
        · intro h
          rw [hout, finalizeJob_outcome] at h
          cases h
        · intro raw h
          rw [hout, finalizeJob_outcome] at h
          cases h

theorem c6_amended_result_every_attempt_witness :
    kvGet (ProcessEmailQueue sendAlwaysOk
        ⟨[Payload.ok otpJobUrgent], [], [], [], []⟩ 50 "f").1.results
        (EmailResultSet ++ ":" ++ otpJobUrgent.id) =
      some ({ jobID := "job-otp-1", successful := true, error := "", sentAt := 50 },
        ResultTTL) :=
  ((c6_amended_result_every_attempt sendAlwaysOk
      ⟨[Payload.ok otpJobUrgent], [], [], [], []⟩ 50 "f").1 otpJobUrgent
    { jobID := "job-otp-1", successful := true, error := "", sentAt := 50 }
    (by decide)).2

/-! ## Claim C5: priority ordering -/

theorem popTail_singleton (p : Payload) : popTail [p] = some (p, []) := rfl

/-- A poll on a state whose high queue is non-empty always serves the
high queue. -/
theorem brpop_high_serves (st : QueueState) (p : Payload) (rest : List Payload)
    (h : st.high = rest ++ [p]) :
    brpop st = some (EmailHighPriorityQueue, p, { st with high := rest }) := by
  unfold brpop
  rw [h, popTail_concat]

/-- With the high queue empty, a poll on a non-empty normal queue serves
the normal queue. -/
theorem brpop_normal_serves (st : QueueState) (p : Payload) (rest : List Payload)
    (hh : st.high = []) (h : st.normal = rest ++ [p]) :
    brpop st = some (EmailNormalPriorityQueue, p, { st with normal := rest }) := by
  unfold brpop
  rw [hh, h, popTail_concat]
  rfl

/-- With high and normal queues empty, a poll on a non-empty low queue
serves the low queue. -/
theorem brpop_low_serves (st : QueueState) (p : Payload) (rest : List Payload)
    (hh : st.high = []) (hn : st.normal = []) (h : st.low = rest ++ [p]) :
    brpop st = some (EmailLowPriorityQueue, p, { st with low := rest }) := by
  unfold brpop
  rw [hh, hn, h, popTail_concat]
  rfl

theorem brpop_all_empty (st : QueueState)
    (hh : st.high = []) (hn : st.normal = []) (hl : st.low = []) :
    brpop st = none := by
  unfold brpop
  rw [hh, hn, hl]
  rfl

theorem ProcessEmailQueue_step_empty (send : EmailJob → SendOutcome) (st : QueueState)
    (now : Nat) (freshId : String) (hb : brpop st = none) :
    ProcessEmailQueue send st now freshId = (st, PollOutcome.empty) := by
  unfold ProcessEmailQueue
  rw [hb]

theorem ProcessEmailQueue_step_ok (send : EmailJob → SendOutcome) (st : QueueState)
    (now : Nat) (freshId queueName : String) (job : EmailJob) (st1 : QueueState)
    (hb : brpop st = some (queueName, Payload.ok job, st1))
    (hdue : ¬(job.processAfter ≠ 0 ∧ now < job.processAfter)) :
    ProcessEmailQueue send st now freshId = finalizeJob send st1 job now freshId := by
  unfold ProcessEmailQueue
  rw [hb]
  dsimp only
  rw [if_neg hdue]

theorem ProcessEmailQueue_step_deferred (send : EmailJob → SendOutcome) (st : QueueState)
    (now : Nat) (freshId queueName : String) (job : EmailJob) (st1 : QueueState)
    (hb : brpop st = some (queueName, Payload.ok job, st1))
    (hdef : job.processAfter ≠ 0 ∧ now < job.processAfter) :
    ProcessEmailQueue send st now freshId =
      (rpush st1 queueName (Payload.ok job), PollOutcome.deferred job) := by
  unfold ProcessEmailQueue
  rw [hb]
  dsimp only
  rw [if_pos hdef]

/-- Routing specialised to an urgent-priority (0) job: it lands on the
high queue. -/
theorem QueueEmail_priority_urgent (st : QueueState) (job : EmailJob)
    (now : Nat) (freshId : String) (h : job.priority = PriorityUrgent) :
    (QueueEmail st job now freshId).1 =
      { st with high := Payload.ok (QueueEmail st job now freshId).2 :: st.high } := by
  rw [QueueEmail_routing, h]
  norm_num [PriorityUrgent]

/-- Routing specialised to a low-priority (3) job: it lands on the
normal queue (3 ≤ 5). -/
theorem QueueEmail_priority_low (st : QueueState) (job : EmailJob)
    (now : Nat) (freshId : String) (h : job.priority = PriorityLow) :
    (QueueEmail st job now freshId).1 =
      { st with normal := Payload.ok (QueueEmail st job now freshId).2 :: st.normal } := by
  rw [QueueEmail_routing, h]
  norm_num [PriorityLow]

theorem finalizeJob_success_state (send : EmailJob → SendOutcome) (st1 : QueueState)
    (job : EmailJob) (now : Nat) (freshId : String)
    (h : (processEmailJob send job now).successful = true) :
    (finalizeJob send st1 job now freshId).1 =
      { st1 with
        processing := kvDel (kvSet st1.processing
          (EmailProcessingSet ++ ":" ++ job.id) job ProcessingTTL)
          (EmailProcessingSet ++ ":" ++ job.id),
        results := kvSet st1.results (EmailResultSet ++ ":" ++ job.id)
          (processEmailJob send job now) ResultTTL } := by
  have hn : ¬((processEmailJob send job now).successful = false ∧
      job.retryCount < job.maxRetries) := by
    simp [h]
  unfold finalizeJob
  dsimp only
  rw [if_neg hn]

/-- C5: each poll scans the lists in the fixed order high, normal, low
and serves the first available item, so it never yields a lower-tier item
while a higher-tier one is queued; consequently, for an urgent-priority
job J1 and a low-priority job J2 both enqueued before polling begins, the
first poll yields J1 (whatever the send oracle does), and once J1's send
succeeds the following poll yields J2.  (With the three-queue routing of
QueueEmail, urgent priority 0 lands on the high list and low priority 3
on the normal list, which the poll order still serves after it.) -/
theorem c5_priority_ordering
    (send : EmailJob → SendOutcome) (j1 j2 : EmailJob)
    (ta tb t1 t2 : Nat) (fa fb f1 f2 : String)
    (hp1 : j1.priority = PriorityUrgent) (hp2 : j2.priority = PriorityLow)
    (hpa1 : j1.processAfter = 0) (hpa2 : j2.processAfter = 0)
    (htf1 : j1.templateFile ≠ "") :
    (∀ st : QueueState, st.high ≠ [] →
      ∃ p, st.high.getLast? = some p ∧
        brpop st = some (EmailHighPriorityQueue, p, { st with high := st.high.dropLast })) ∧
    (∀ st : QueueState, st.high = [] → st.normal ≠ [] →
      ∃ p, st.normal.getLast? = some p ∧
        brpop st = some (EmailNormalPriorityQueue, p, { st with normal := st.normal.dropLast })) ∧
    ((ProcessEmailQueue send
        (QueueEmail (QueueEmail emptyQueueState j1 ta fa).1 j2 tb fb).1 t1 f1).2 =
      PollOutcome.processed (QueueEmail emptyQueueState j1 ta fa).2
        (processEmailJob send (QueueEmail emptyQueueState j1 ta fa).2 t1)) ∧
    (send (QueueEmail emptyQueueState j1 ta fa).2 = SendOutcome.success →
      (ProcessEmailQueue send
          (ProcessEmailQueue send
            (QueueEmail (QueueEmail emptyQueueState j1 ta fa).1 j2 tb fb).1 t1 f1).1 t2 f2).2 =
        PollOutcome.processed (QueueEmail (QueueEmail emptyQueueState j1 ta fa).1 j2 tb fb).2
          (processEmailJob send
            (QueueEmail (QueueEmail emptyQueueState j1 ta fa).1 j2 tb fb).2 t2)) := by
  refine ⟨?_, ?_, ?_, ?_⟩
  · intro st h
    cases hg : st.high.getLast? with
    | none => exact absurd (List.getLast?_eq_none_iff.mp hg) h
    | some p =>
      exact ⟨p, rfl, brpop_high_serves st p st.high.dropLast
        (List.dropLast_append_getLast? p (Option.mem_def.mpr hg)).symm⟩
  · intro st hh hn
    cases hg : st.normal.getLast? with
    | none => exact absurd (List.getLast?_eq_none_iff.mp hg) hn
    | some p =>
      exact ⟨p, rfl, brpop_normal_serves st p st.normal.dropLast hh
        (List.dropLast_append_getLast? p (Option.mem_def.mpr hg)).symm⟩
  · have hpa1q : (QueueEmail emptyQueueState j1 ta fa).2.processAfter = 0 := by
      rw [QueueEmail_job]
      exact hpa1
    have hE : (QueueEmail (QueueEmail emptyQueueState j1 ta fa).1 j2 tb fb).1 =
        (⟨[Payload.ok (QueueEmail emptyQueueState j1 ta fa).2],
          [Payload.ok (QueueEmail (QueueEmail emptyQueueState j1 ta fa).1 j2 tb fb).2],
          [], [], []⟩ : QueueState) := by
      rw [QueueEmail_priority_low _ _ _ _ hp2, QueueEmail_priority_urgent _ _ _ _ hp1]
      rfl
    have hb1 : brpop (QueueEmail (QueueEmail emptyQueueState j1 ta fa).1 j2 tb fb).1 =
        some (EmailHighPriorityQueue,
          Payload.ok (QueueEmail emptyQueueState j1 ta fa).2,
          (⟨[], [Payload.ok (QueueEmail (QueueEmail emptyQueueState j1 ta fa).1 j2 tb fb).2],
            [], [], []⟩ : QueueState)) := by
      rw [hE]
      exact brpop_high_serves _ _ [] rfl
    rw [ProcessEmailQueue_step_ok send _ t1 f1 _ _ _ hb1 (by simp [hpa1q]),
      finalizeJob_outcome]
  · intro hsend
    have hpa1q : (QueueEmail emptyQueueState j1 ta fa).2.processAfter = 0 := by
      rw [QueueEmail_job]
      exact hpa1
    have hpa2q :
        (QueueEmail (QueueEmail emptyQueueState j1 ta fa).1 j2 tb fb).2.processAfter = 0 := by
      rw [QueueEmail_job]
      exact hpa2
    have htf1q : (QueueEmail emptyQueueState j1 ta fa).2.templateFile ≠ "" := by
      rw [QueueEmail_job]
      exact htf1
    have hE : (QueueEmail (QueueEmail emptyQueueState j1 ta fa).1 j2 tb fb).1 =
        (⟨[Payload.ok (QueueEmail emptyQueueState j1 ta fa).2],
          [Payload.ok (QueueEmail (QueueEmail emptyQueueState j1 ta fa).1 j2 tb fb).2],
          [], [], []⟩ : QueueState) := by
      rw [QueueEmail_priority_low _ _ _ _ hp2, QueueEmail_priority_urgent _ _ _ _ hp1]
      rfl
    have hb1 : brpop (QueueEmail (QueueEmail emptyQueueState j1 ta fa).1 j2 tb fb).1 =
        some (EmailHighPriorityQueue,
          Payload.ok (QueueEmail emptyQueueState j1 ta fa).2,
          (⟨[], [Payload.ok (QueueEmail (QueueEmail emptyQueueState j1 ta fa).1 j2 tb fb).2],
            [], [], []⟩ : QueueState)) := by
      rw [hE]
      exact brpop_high_serves _ _ [] rfl
    have hpoll1 : ProcessEmailQueue send
        (QueueEmail (QueueEmail emptyQueueState j1 ta fa).1 j2 tb fb).1 t1 f1 =
        finalizeJob send
          (⟨[], [Payload.ok (QueueEmail (QueueEmail emptyQueueState j1 ta fa).1 j2 tb fb).2],
            [], [], []⟩ : QueueState)
          (QueueEmail emptyQueueState j1 ta fa).2 t1 f1 :=
      ProcessEmailQueue_step_ok send _ t1 f1 _ _ _ hb1 (by simp [hpa1q])
    have hres1 : (processEmailJob send (QueueEmail emptyQueueState j1 ta fa).2 t1).successful
        = true := by
      unfold processEmailJob
      rw [if_neg htf1q, hsend]
    have hst2 := finalizeJob_success_state send
      (⟨[], [Payload.ok (QueueEmail (QueueEmail emptyQueueState j1 ta fa).1 j2 tb fb).2],
        [], [], []⟩ : QueueState)
      (QueueEmail emptyQueueState j1 ta fa).2 t1 f1 hres1
    have hb2 := brpop_normal_serves
      ((finalizeJob send
        (⟨[], [Payload.ok (QueueEmail (QueueEmail emptyQueueState j1 ta fa).1 j2 tb fb).2],
          [], [], []⟩ : QueueState)
        (QueueEmail emptyQueueState j1 ta fa).2 t1 f1).1)
      (Payload.ok (QueueEmail (QueueEmail emptyQueueState j1 ta fa).1 j2 tb fb).2) []
      (by rw [hst2]) (by rw [hst2]; rfl)
    rw [hpoll1,
      ProcessEmailQueue_step_ok send _ t2 f2 _ _ _ hb2 (by simp [hpa2q]),
      finalizeJob_outcome]

/-- Sample low-priority (3) marketing job. -/
def marketingJob : EmailJob :=
  { id := "job-low-1", type := "marketing", toAddr := "dave@example.com",
    subject := "News", templateFile := "marketing.html", templateData := [],
    priority := PriorityLow, createdAt := 0, processAfter := 0,
    retryCount := 0, maxRetries := 3, lastError := "", lastAttemptedAt := 0 }

theorem c5_priority_ordering_witness :
    (ProcessEmailQueue sendAlwaysOk
        (QueueEmail (QueueEmail emptyQueueState otpJobUrgent 1 "fa").1 marketingJob 2 "fb").1
        3 "f1").2 =
      PollOutcome.processed (QueueEmail emptyQueueState otpJobUrgent 1 "fa").2
        (processEmailJob sendAlwaysOk (QueueEmail emptyQueueState otpJobUrgent 1 "fa").2 3) ∧
    (ProcessEmailQueue sendAlwaysOk
        (ProcessEmailQueue sendAlwaysOk
          (QueueEmail (QueueEmail emptyQueueState otpJobUrgent 1 "fa").1 marketingJob 2 "fb").1
          3 "f1").1 4 "f2").2 =
      PollOutcome.processed
        (QueueEmail (QueueEmail emptyQueueState otpJobUrgent 1 "fa").1 marketingJob 2 "fb").2
        (processEmailJob sendAlwaysOk
          (QueueEmail (QueueEmail emptyQueueState otpJobUrgent 1 "fa").1 marketingJob 2 "fb").2
          4) :=
  ⟨(c5_priority_ordering sendAlwaysOk otpJobUrgent marketingJob 1 2 3 4 "fa" "fb" "f1" "f2"
      (by decide) (by decide) (by decide) (by decide) (by decide)).2.2.1,
   (c5_priority_ordering sendAlwaysOk otpJobUrgent marketingJob 1 2 3 4 "fa" "fb" "f1" "f2"
      (by decide) (by decide) (by decide) (by decide) (by decide)).2.2.2 rfl⟩

/-! ## Claim C4: delayed jobs -/

theorem QueueState_eq (a b : QueueState) (h1 : a.high = b.high) (h2 : a.normal = b.normal)
    (h3 : a.low = b.low) (h4 : a.processing = b.processing)
    (h5 : a.results = b.results) : a = b := by
  cases a
  cases b
  simp_all

theorem rpush_high (st : QueueState) (p : Payload) :
    rpush st EmailHighPriorityQueue p = { st with high := st.high ++ [p] } := by
  unfold rpush
  rw [if_pos rfl]

theorem rpush_normal (st : QueueState) (p : Payload) :
    rpush st EmailNormalPriorityQueue p = { st with normal := st.normal ++ [p] } := by
  unfold rpush
  rw [if_neg (by decide), if_pos rfl]

theorem rpush_low (st : QueueState) (p : Payload) :
    rpush st EmailLowPriorityQueue p = { st with low := st.low ++ [p] } := by
  unfold rpush
  rw [if_neg (by decide), if_neg (by decide), if_pos rfl]

/-- Pushing the popped job back onto the tail of the list it was served
from restores the pre-pop state exactly. -/
theorem rpush_back_eq (st : QueueState) (qn : String) (job : EmailJob) (st1 : QueueState)
    (hb : brpop st = some (qn, Payload.ok job, st1)) :
    rpush st1 qn (Payload.ok job) = st := by
  have hspec := brpop_spec st qn (Payload.ok job) st1 hb
  rcases hspec.2.2 with hc | hc | hc
  · obtain ⟨hqn, hh, hn, hl⟩ := hc
    subst hqn
    rw [rpush_high]
    exact QueueState_eq _ _ hh.symm hn hl hspec.1 hspec.2.1
  · obtain ⟨hqn, _, hn, hh, hl⟩ := hc
    subst hqn
    rw [rpush_normal]
    exact QueueState_eq _ _ hh hn.symm hl hspec.1 hspec.2.1
  · obtain ⟨hqn, _, _, hl, hh, hn⟩ := hc
    subst hqn
    rw [rpush_low]
    exact QueueState_eq _ _ hh hn hl.symm hspec.1 hspec.2.1

theorem ProcessEmailQueue_step_corrupt (send : EmailJob → SendOutcome) (st : QueueState)
    (now : Nat) (freshId qn raw : String) (st1 : QueueState)
    (hb : brpop st = some (qn, Payload.corrupt raw, st1)) :
    ProcessEmailQueue send st now freshId = (st1, PollOutcome.deserializeError raw) := by
  unfold ProcessEmailQueue
  rw [hb]

/-- A poll that pops a not-yet-due job is a complete no-op. -/
theorem ProcessEmailQueue_deferred_noop (send : EmailJob → SendOutcome) (st : QueueState)
    (now : Nat) (freshId qn : String) (job : EmailJob) (st1 : QueueState)
    (hb : brpop st = some (qn, Payload.ok job, st1))
    (h0 : job.processAfter ≠ 0) (hlt : now < job.processAfter) :
    ProcessEmailQueue send st now freshId = (st, PollOutcome.deferred job) := by
  rw [ProcessEmailQueue_step_deferred send st now freshId qn job st1 hb ⟨h0, hlt⟩,
    rpush_back_eq st qn job st1 hb]

/-- A state holding exactly one queued job (on the list its priority
selects) above the given marker and result stores. -/
def soloState (job : EmailJob) (pr : KVStore EmailJob) (rs : KVStore EmailJobResult) :
    QueueState :=
  lpush ⟨[], [], [], pr, rs⟩ (selectQueueName job.priority) (Payload.ok job)

theorem brpop_solo (job : EmailJob) (pr : KVStore EmailJob) (rs : KVStore EmailJobResult) :
    brpop (soloState job pr rs) =
      some (selectQueueName job.priority, Payload.ok job,
        (⟨[], [], [], pr, rs⟩ : QueueState)) := by
  unfold soloState lpush
  by_cases h0 : job.priority ≤ 0
  · have hqn : selectQueueName job.priority = EmailHighPriorityQueue := by
      unfold selectQueueName
      rw [if_pos h0]
    rw [hqn, if_pos rfl]
    exact brpop_high_serves _ _ [] rfl
  · by_cases h5 : job.priority ≤ 5
    · have hqn : selectQueueName job.priority = EmailNormalPriorityQueue := by
        unfold selectQueueName
        rw [if_neg h0, if_pos h5]
      rw [hqn, if_neg (by decide), if_pos rfl]
      exact brpop_normal_serves _ _ [] rfl rfl
    · have hqn : selectQueueName job.priority = EmailLowPriorityQueue := by
        unfold selectQueueName
        rw [if_neg h0, if_neg h5]
      rw [hqn, if_neg (by decide), if_neg (by decide), if_pos rfl]
      exact brpop_low_serves _ _ [] rfl rfl rfl

/-- C4: no job is handed to the send step before its processAfter time:
a processed outcome implies processAfter was unset or already reached;
a poll that pops a not-yet-due job pushes it back onto the tail of the
same list and is a no-op on the state; and for a job alone in its queue,
polls strictly before processAfter all defer and leave the state fixed,
while any poll sequence containing a time at or past processAfter
delivers the job to the send step. -/
theorem c4_delay_honored
    (send : EmailJob → SendOutcome) (st : QueueState) (now : Nat) (freshId : String)
    (job : EmailJob) :
    (∀ j res, (ProcessEmailQueue send st now freshId).2 = PollOutcome.processed j res →
      j.processAfter = 0 ∨ j.processAfter ≤ now) ∧
    (∀ queueName st1, brpop st = some (queueName, Payload.ok job, st1) →
      job.processAfter ≠ 0 → now < job.processAfter →
      ProcessEmailQueue send st now freshId =
        (rpush st1 queueName (Payload.ok job), PollOutcome.deferred job) ∧
      rpush st1 queueName (Payload.ok job) = st) ∧
    (∀ pr rs ts, job.processAfter ≠ 0 → (∀ t ∈ ts, t < job.processAfter) →
      pollRun send (soloState job pr rs) ts =
        (soloState job pr rs, ts.map fun _ => PollOutcome.deferred job)) ∧
    (∀ pr rs ts, job.processAfter ≠ 0 → (∃ t ∈ ts, job.processAfter ≤ t) →
      ∃ k res, (pollRun send (soloState job pr rs) ts).2.get? k =
        some (PollOutcome.processed job res)) := by
  refine ⟨?_, ?_, ?_, ?_⟩
  · intro j res h
    cases hb : brpop st with
    | none =>
      rw [ProcessEmailQueue_step_empty send st now freshId hb] at h
      cases h
    | some v =>
      obtain ⟨qn, payload, st1⟩ := v
      cases payload with
      | corrupt raw =>
        rw [ProcessEmailQueue_step_corrupt send st now freshId qn raw st1 hb] at h
        cases h
      | ok job0 =>
        by_cases hdef : job0.processAfter ≠ 0 ∧ now < job0.processAfter
        · rw [ProcessEmailQueue_step_deferred send st now freshId qn job0 st1 hb hdef] at h
          cases h
        · rw [ProcessEmailQueue_step_ok send st now freshId qn job0 st1 hb hdef,
            finalizeJob_outcome] at h
          cases h
          omega
  · intro qn st1 hb h0 hlt
    exact ⟨ProcessEmailQueue_step_deferred send st now freshId qn job st1 hb ⟨h0, hlt⟩,
      rpush_back_eq st qn job st1 hb⟩
  · intro pr rs ts h0 hall
    induction ts with
    | nil => rfl
    | cons t ts ih =>
      have hstep := ProcessEmailQueue_deferred_noop send (soloState job pr rs) t "" _ job _
        (brpop_solo job pr rs) h0 (hall t (by simp))
      simp only [pollRun, hstep, List.map_cons]
      rw [ih (fun u hu => hall u (by simp [hu]))]
  · intro pr rs ts h0 hex
    induction ts with
    | nil => simp at hex
    | cons t ts ih =>
      by_cases hdue : job.processAfter ≤ t
      · refine ⟨0, processEmailJob send job t, ?_⟩
        have hstep := ProcessEmailQueue_step_ok send (soloState job pr rs) t "" _ job _
          (brpop_solo job pr rs) (by omega)
        simp only [pollRun, hstep, finalizeJob_outcome]
        rfl
      · have hstep := ProcessEmailQueue_deferred_noop send (soloState job pr rs) t "" _ job _
          (brpop_solo job pr rs) h0 (by omega)
        obtain ⟨u, hu, hud⟩ := hex
        rcases List.mem_cons.mp hu with rfl | hmem
        · omega
        · obtain ⟨k, res, hk⟩ := ih ⟨u, hmem, hud⟩
          refine ⟨k + 1, res, ?_⟩
          simp only [pollRun, hstep]
          exact hk

/-- Sample job with a delayed processAfter. -/
def delayedJob : EmailJob :=
  { id := "job-delay", type := "reminder", toAddr := "erin@example.com",
    subject := "Reminder", templateFile := "event_notification.html", templateData := [],
    priority := PriorityNormal, createdAt := 0, processAfter := 50,
    retryCount := 0, maxRetries := 3, lastError := "", lastAttemptedAt := 0 }

theorem c4_delay_honored_witness :
    pollRun sendAlwaysOk (soloState delayedJob [] []) [1, 2, 3] =
      (soloState delayedJob [] [],
        [1, 2, 3].map fun _ => PollOutcome.deferred delayedJob) ∧
    (∃ k res, (pollRun sendAlwaysOk (soloState delayedJob [] []) [60]).2.get? k =
      some (PollOutcome.processed delayedJob res)) :=
  ⟨(c4_delay_honored sendAlwaysOk emptyQueueState 0 "f" delayedJob).2.2.1 [] [] [1, 2, 3]
      (by decide) (by decide),
   (c4_delay_honored sendAlwaysOk emptyQueueState 0 "f" delayedJob).2.2.2 [] [] [60]
      (by decide) (by decide)⟩

/-! ## Claim C3: retry with exponential backoff -/

/-- The result of a failed attempt (template present, transport failing
with error e). -/
def failRes (job : EmailJob) (e : String) : EmailJobResult :=
  { jobID := job.id, successful := false, error := e, sentAt := 0 }

theorem processEmailJob_fail (e : String) (job : EmailJob) (now : Nat)
    (htf : job.templateFile ≠ "") :
    processEmailJob (sendAlwaysFail e) job now = failRes job e := by
  unfold processEmailJob sendAlwaysFail failRes
  rw [if_neg htf]

/-- The job as it is re-enqueued after a failed attempt at time now:
retryCount incremented, lastAttemptedAt/lastError set, processAfter
pushed out by 2^retryCount seconds (shift after the increment), and
createdAt restamped by QueueEmail; the id is kept (non-empty). -/
def failRetryJob (job : EmailJob) (now : Nat) (e : String) : EmailJob :=
  { job with
    retryCount := job.retryCount + 1,
    lastAttemptedAt := now,
    lastError := e,
    processAfter := now + 2 ^ (job.retryCount + 1),
    createdAt := now }

/-- The k-th attempt of an always-failing job: the job value as processed
on attempt k together with the time that attempt runs (each attempt runs
exactly when its backoff expires). -/
def attemptState (job : EmailJob) (t : Nat) (e : String) : Nat → EmailJob × Nat
  | 0 => (job, t)
  | k + 1 =>
    (failRetryJob (attemptState job t e k).1 (attemptState job t e k).2 e,
     (attemptState job t e k).2 + 2 ^ ((attemptState job t e k).1.retryCount + 1))

/-- Poll times for an always-failing job: the first poll at t0, each
subsequent poll exactly when the re-enqueued job becomes due. -/
def c3Times (t0 rc : Nat) : Nat → List Nat
  | 0 => [t0]
  | n + 1 => t0 :: c3Times (t0 + 2 ^ (rc + 1)) (rc + 1) n

/-- The outcome sequence of an always-failing job given n retries left. -/
def attemptOutcomes (e : String) (job : EmailJob) (t0 : Nat) : Nat → List PollOutcome
  | 0 => [PollOutcome.processed job (failRes job e)]
  | n + 1 => PollOutcome.processed job (failRes job e) ::
      attemptOutcomes e (failRetryJob job t0 e) (t0 + 2 ^ (job.retryCount + 1)) n

/-- One poll of a due, always-failing job with retries remaining: the
attempt is processed, the failure result recorded, and the job comes back
as a single queued job with retryCount+1 and the new processAfter. -/
theorem solo_fail_step_retry (e : String) (job : EmailJob) (pr : KVStore EmailJob)
    (rs : KVStore EmailJobResult) (t : Nat) (fid : String)
    (htf : job.templateFile ≠ "") (hid : job.id ≠ "")
    (hdue : ¬(job.processAfter ≠ 0 ∧ t < job.processAfter))
    (hrc : job.retryCount < job.maxRetries) :
    ProcessEmailQueue (sendAlwaysFail e) (soloState job pr rs) t fid =
      (soloState (failRetryJob job t e)
        (kvDel (kvSet pr (EmailProcessingSet ++ ":" ++ job.id) job ProcessingTTL)
          (EmailProcessingSet ++ ":" ++ job.id))
        (kvSet rs (EmailResultSet ++ ":" ++ job.id) (failRes job e) ResultTTL),
       PollOutcome.processed job (failRes job e)) := by
  rw [ProcessEmailQueue_step_ok (sendAlwaysFail e) _ t fid _ job _ (brpop_solo job pr rs) hdue]
  unfold finalizeJob
  dsimp only
  rw [processEmailJob_fail e job t htf]
  rw [if_pos (⟨rfl, hrc⟩ :
    (failRes job e).successful = false ∧ job.retryCount < job.maxRetries)]
  unfold QueueEmail soloState
  dsimp only
  rw [if_neg hid]
  rfl

/-- One poll of a due, always-failing job with retries exhausted: the
attempt is processed, the failure result recorded, and the job is dropped
(the queues end up empty). -/
theorem solo_fail_step_drop (e : String) (job : EmailJob) (pr : KVStore EmailJob)
    (rs : KVStore EmailJobResult) (t : Nat) (fid : String)
    (htf : job.templateFile ≠ "")
    (hdue : ¬(job.processAfter ≠ 0 ∧ t < job.processAfter))
    (hrc : ¬ job.retryCount < job.maxRetries) :
    ProcessEmailQueue (sendAlwaysFail e) (soloState job pr rs) t fid =
      ((⟨[], [], [],
        kvDel (kvSet pr (EmailProcessingSet ++ ":" ++ job.id) job ProcessingTTL)
          (EmailProcessingSet ++ ":" ++ job.id),
        kvSet rs (EmailResultSet ++ ":" ++ job.id) (failRes job e) ResultTTL⟩ : QueueState),
       PollOutcome.processed job (failRes job e)) := by
  rw [ProcessEmailQueue_step_ok (sendAlwaysFail e) _ t fid _ job _ (brpop_solo job pr rs) hdue]
  unfold finalizeJob
  dsimp only
  rw [processEmailJob_fail e job t htf]
  rw [if_neg (fun h => hrc h.2)]

/-- The full run of an always-failing job, polled exactly at its due
times: with n = maxRetries - retryCount retries left the run produces the
attempt-outcome sequence and drains the queues. -/
theorem solo_fail_run (e : String) : ∀ (n : Nat) (job : EmailJob) (pr : KVStore EmailJob)
    (rs : KVStore EmailJobResult) (t0 : Nat),
    job.maxRetries - job.retryCount = n →
    job.templateFile ≠ "" → job.id ≠ "" →
    (job.processAfter = 0 ∨ job.processAfter ≤ t0) →
    (pollRun (sendAlwaysFail e) (soloState job pr rs) (c3Times t0 job.retryCount n)).2 =
      attemptOutcomes e job t0 n ∧
    (pollRun (sendAlwaysFail e) (soloState job pr rs) (c3Times t0 job.retryCount n)).1.high
      = [] ∧
    (pollRun (sendAlwaysFail e) (soloState job pr rs) (c3Times t0 job.retryCount n)).1.normal
      = [] ∧
    (pollRun (sendAlwaysFail e) (soloState job pr rs) (c3Times t0 job.retryCount n)).1.low
      = [] := by
  intro n
  induction n with
  | zero =>
    intro job pr rs t0 hfuel htf hid hpa
    have hrc : ¬ job.retryCount < job.maxRetries := by omega
    have hdue : ¬(job.processAfter ≠ 0 ∧ t0 < job.processAfter) := by
      rcases hpa with h | h <;> omega
    have hstep := solo_fail_step_drop e job pr rs t0 "" htf hdue hrc
    simp only [c3Times, pollRun, hstep, attemptOutcomes]
    refine ⟨?_, ?_, ?_, ?_⟩ <;> first | rfl | trivial
  | succ n ih =>
    intro job pr rs t0 hfuel htf hid hpa
    have hrc : job.retryCount < job.maxRetries := by omega
    have hdue : ¬(job.processAfter ≠ 0 ∧ t0 < job.processAfter) := by
      rcases hpa with h | h <;> omega
    have hstep := solo_fail_step_retry e job pr rs t0 "" htf hid hdue hrc
    have hrec := ih (failRetryJob job t0 e)
      (kvDel (kvSet pr (EmailProcessingSet ++ ":" ++ job.id) job ProcessingTTL)
        (EmailProcessingSet ++ ":" ++ job.id))
      (kvSet rs (EmailResultSet ++ ":" ++ job.id) (failRes job e) ResultTTL)
      (t0 + 2 ^ (job.retryCount + 1))
      (by show job.maxRetries - (job.retryCount + 1) = n; omega)
      htf hid (Or.inr (le_refl _))
    rw [show (failRetryJob job t0 e).retryCount = job.retryCount + 1 from rfl] at hrec
    simp only [c3Times, pollRun, hstep, attemptOutcomes]
    exact ⟨by rw [hrec.1], hrec.2.1, hrec.2.2.1, hrec.2.2.2⟩

theorem attemptOutcomes_length (e : String) : ∀ (n : Nat) (job : EmailJob) (t0 : Nat),
    (attemptOutcomes e job t0 n).length = n + 1 := by
  intro n
  induction n with
  | zero => intro job t0; rfl
  | succ n ih =>
    intro job t0
    simp only [attemptOutcomes, List.length_cons, ih]

theorem attemptState_shift (e : String) : ∀ (k : Nat) (job : EmailJob) (t0 : Nat),
    attemptState job t0 e (k + 1) =
      attemptState (failRetryJob job t0 e) (t0 + 2 ^ (job.retryCount + 1)) e k := by
  intro k
  induction k with
  | zero => intro job t0; rfl
  | succ k ih =>
    intro job t0
    show (failRetryJob (attemptState job t0 e (k + 1)).1 (attemptState job t0 e (k + 1)).2 e,
      (attemptState job t0 e (k + 1)).2 + 2 ^ ((attemptState job t0 e (k + 1)).1.retryCount + 1))
      = _
    rw [ih]
    rfl

theorem attemptOutcomes_get (e : String) : ∀ (n k : Nat) (job : EmailJob) (t0 : Nat),
    k ≤ n →
    (attemptOutcomes e job t0 n).get? k =
      some (PollOutcome.processed (attemptState job t0 e k).1
        (failRes (attemptState job t0 e k).1 e)) := by
  intro n
  induction n with
  | zero =>
    intro k job t0 hk
    interval_cases k
    rfl
  | succ n ih =>
    intro k job t0 hk
    cases k with
    | zero => rfl
    | succ k =>
      show (attemptOutcomes e (failRetryJob job t0 e) (t0 + 2 ^ (job.retryCount + 1)) n).get? k
        = _
      rw [ih k (failRetryJob job t0 e) (t0 + 2 ^ (job.retryCount + 1)) (by omega),
        attemptState_shift]

theorem attemptState_retryCount (e : String) (job : EmailJob) (t0 : Nat) :
    ∀ k, (attemptState job t0 e k).1.retryCount = job.retryCount + k := by
  intro k
  induction k with
  | zero => rfl
  | succ k ih =>
    show (attemptState job t0 e k).1.retryCount + 1 = job.retryCount + (k + 1)
    omega

theorem attemptState_processAfter (e : String) (job : EmailJob) (t0 : Nat) (k : Nat) :
    (attemptState job t0 e (k + 1)).1.processAfter =
      (attemptState job t0 e k).2 + 2 ^ ((attemptState job t0 e k).1.retryCount + 1) := rfl

theorem attemptState_time (e : String) (job : EmailJob) (t0 : Nat) (k : Nat) :
    (attemptState job t0 e (k + 1)).2 =
      (attemptState job t0 e k).2 + 2 ^ ((attemptState job t0 e k).1.retryCount + 1) := rfl

/-- C3: a job with retryCount 0 whose send always fails, polled whenever
it becomes due, is attempted exactly maxRetries + 1 times in total: the
k-th poll (k = 0 .. maxRetries) processes the job of attempt k, whose
retryCount is k; before the i-th re-enqueue (i = 1 .. maxRetries)
retryCount is incremented to i and processAfter is set to the failing
attempt's time plus 2^i seconds (delays 2s, 4s, 8s, ...); after the
attempt on which retryCount equals maxRetries fails, the queues are empty
and every further poll returns the empty outcome — the job is never
requeued again. -/
theorem c3_retry_backoff (e : String) (job : EmailJob) (t0 : Nat)
    (pr : KVStore EmailJob) (rs : KVStore EmailJobResult)
    (h0 : job.retryCount = 0) (hpa : job.processAfter = 0)
    (htf : job.templateFile ≠ "") (hid : job.id ≠ "") :
    (pollRun (sendAlwaysFail e) (soloState job pr rs)
        (c3Times t0 0 job.maxRetries)).2.length = job.maxRetries + 1 ∧
    (∀ k, k ≤ job.maxRetries →
      (pollRun (sendAlwaysFail e) (soloState job pr rs)
          (c3Times t0 0 job.maxRetries)).2.get? k =
        some (PollOutcome.processed (attemptState job t0 e k).1
          (failRes (attemptState job t0 e k).1 e))) ∧
    (∀ k, (attemptState job t0 e k).1.retryCount = k) ∧
    (∀ k, (attemptState job t0 e (k + 1)).1.processAfter =
      (attemptState job t0 e k).2 + 2 ^ (k + 1)) ∧
    (∀ k, (attemptState job t0 e (k + 1)).2 =
      (attemptState job t0 e k).2 + 2 ^ (k + 1)) ∧
    (pollRun (sendAlwaysFail e) (soloState job pr rs)
        (c3Times t0 0 job.maxRetries)).1.high = [] ∧
    (pollRun (sendAlwaysFail e) (soloState job pr rs)
        (c3Times t0 0 job.maxRetries)).1.normal = [] ∧
    (pollRun (sendAlwaysFail e) (soloState job pr rs)
        (c3Times t0 0 job.maxRetries)).1.low = [] ∧
    (∀ t fid, ProcessEmailQueue (sendAlwaysFail e)
        (pollRun (sendAlwaysFail e) (soloState job pr rs)
          (c3Times t0 0 job.maxRetries)).1 t fid =
      ((pollRun (sendAlwaysFail e) (soloState job pr rs)
          (c3Times t0 0 job.maxRetries)).1, PollOutcome.empty)) := by
  have hfuel : job.maxRetries - job.retryCount = job.maxRetries := by omega
  have hrun := solo_fail_run e job.maxRetries job pr rs t0 hfuel htf hid (Or.inl hpa)
  rw [h0] at hrun
  refine ⟨?_, ?_, ?_, ?_, ?_, hrun.2.1, hrun.2.2.1, hrun.2.2.2, ?_⟩
  · rw [hrun.1, attemptOutcomes_length]
  · intro k hk
    rw [hrun.1]
    exact attemptOutcomes_get e job.maxRetries k job t0 hk
  · intro k
    rw [attemptState_retryCount]
    omega
  · intro k
    rw [attemptState_processAfter, attemptState_retryCount, h0, Nat.zero_add]
  · intro k
    rw [attemptState_time, attemptState_retryCount, h0, Nat.zero_add]
  · intro t fid
    exact ProcessEmailQueue_step_empty _ _ _ _
      (brpop_all_empty _ hrun.2.1 hrun.2.2.1 hrun.2.2.2)

theorem c3_retry_backoff_witness :
    (pollRun (sendAlwaysFail "boom") (soloState retryableJob [] [])
        (c3Times 0 0 retryableJob.maxRetries)).2.length = retryableJob.maxRetries + 1 ∧
    (pollRun (sendAlwaysFail "boom") (soloState retryableJob [] [])
        (c3Times 0 0 retryableJob.maxRetries)).2.get? 1 =
      some (PollOutcome.processed (attemptState retryableJob 0 "boom" 1).1
        (failRes (attemptState retryableJob 0 "boom" 1).1 "boom")) ∧
    (attemptState retryableJob 0 "boom" 1).1.retryCount = 1 ∧
    (attemptState retryableJob 0 "boom" 1).1.processAfter =
      (attemptState retryableJob 0 "boom" 0).2 + 2 ^ 1 ∧
    (pollRun (sendAlwaysFail "boom") (soloState retryableJob [] [])
        (c3Times 0 0 retryableJob.maxRetries)).1.high = [] :=
  ⟨(c3_retry_backoff "boom" retryableJob 0 [] []
      (by decide) (by decide) (by decide) (by decide)).1,
   (c3_retry_backoff "boom" retryableJob 0 [] []
      (by decide) (by decide) (by decide) (by decide)).2.1 1 (by decide),
   (c3_retry_backoff "boom" retryableJob 0 [] []
      (by decide) (by decide) (by decide) (by decide)).2.2.1 1,
   (c3_retry_backoff "boom" retryableJob 0 [] []
      (by decide) (by decide) (by decide) (by decide)).2.2.2.1 0,
   (c3_retry_backoff "boom" retryableJob 0 [] []
      (by decide) (by decide) (by decide) (by decide)).2.2.2.2.2.1⟩

end EventTicketing
